import Mathlib

/-!
Verification development for the FinSight analytics derivation layer.

The definitions below are shallow embeddings of:
  * `calculate_spending_insights` (supabase migration SQL function),
  * `generateInsights` (src/components/analytics/DataInsights.tsx),
  * `generatePredictions` and `generateMonthlyProjection`
    (src/components/analytics/PredictiveAnalytics.tsx),
  * `exportData`'s row construction (src/components/analytics/AnalyticsDashboard.tsx).

Modelling conventions:
  * JavaScript numbers and SQL DECIMALs are embedded as exact rationals;
    the only irrational operation, `Math.sqrt` in the confidence computation,
    is embedded as `Real.sqrt` over the reals.
  * Calendar dates (SQL DATE values and the normalized `YYYY-MM-DD` strings the
    front end buckets by) are embedded as a `year/month/day` record; bucketing
    by the record equals bucketing by the normalized string.
  * The current wall-clock date (`new Date()`) is passed in as explicit
    parameters (today's date, days passed in the month, days in the month,
    and the fraction of the current day already elapsed).
  * JavaScript `Array.prototype.sort` (required stable by the language) is
    embedded as a stable insertion sort.
-/

namespace FinSight

/-- A calendar date (no time of day), as stored in the `date` column and in the
normalized `YYYY-MM-DD` strings used as bucket keys by the front end. -/
structure SDate where
  year : Nat
  month : Nat
  day : Nat
deriving DecidableEq, Repr

/-- Row of `public.expense_categories`. -/
structure Category where
  id : String
  name : String
  color : String
deriving DecidableEq, Repr

/-- Row of `public.expenses` (the fields the analytics layer reads). -/
structure Expense where
  userId : String
  amount : ℚ
  description : String
  categoryId : String
  date : SDate
deriving DecidableEq, Repr

/-- Row of `public.budgets` (the fields the analytics layer reads). -/
structure Budget where
  userId : String
  categoryId : String
  amount : ℚ
  month : Nat
  year : Nat
deriving DecidableEq, Repr

/-- The database state visible to `calculate_spending_insights`. -/
structure DBState where
  categories : List Category
  expenses : List Expense
  budgets : List Budget
deriving Repr

/-- One row of the table returned by `calculate_spending_insights`, also the
`insights` prop consumed by the React analytics components. -/
structure SummaryRow where
  category_name : String
  total_spent : ℚ
  budget_amount : ℚ
  remaining_budget : ℚ
  transaction_count : Nat
deriving DecidableEq, Repr

/-- Insertion of a category into a name-ordered list (model of `ORDER BY ec.name`;
relative order of equal names is unspecified by SQL, the model keeps input order). -/
def insertCatByName (c : Category) : List Category → List Category
  | [] => [c]
  | d :: ds => if d.name ≤ c.name then d :: insertCatByName c ds else c :: d :: ds

/-- Sorting the category catalog by name (`ORDER BY ec.name`). -/
def sortCatsByName : List Category → List Category
  | [] => []
  | c :: cs => insertCatByName c (sortCatsByName cs)

/-- The `WHERE` clause of the grouped expense subquery of
`calculate_spending_insights`: the expense belongs to the given user and its
date falls in the target month/year. -/
def inPeriodFor (u : String) (m y : Nat) (e : Expense) : Bool :=
  e.userId == u && e.date.month == m && e.date.year == y

/-- Shallow embedding of the SQL function `calculate_spending_insights`:
one row per catalog category (sorted by name), left-joined with the per-category
sum/count of the user's expenses in the target month/year and with the user's
budget row for that category and period.  The schema's UNIQUE
(user_id, category_id, month, year) constraint makes the budget join row unique,
so the model takes the first match. -/
def calculate_spending_insights (s : DBState) (u : String) (m y : Nat) :
    List SummaryRow :=
  (sortCatsByName s.categories).map fun c =>
    let es := s.expenses.filter fun e => inPeriodFor u m y e && e.categoryId == c.id
    let b := (s.budgets.filter fun b =>
      b.userId == u && b.categoryId == c.id && b.month == m && b.year == y).head?
    let total := (es.map (·.amount)).sum
    let bamt : ℚ := match b with | none => 0 | some b => b.amount
    { category_name := c.name
      total_spent := total
      budget_amount := bamt
      remaining_budget := bamt - total
      transaction_count := es.length }

/-- Floor of a rational as an integer (`Int.fdiv` is floor division). -/
def ratFloor (q : ℚ) : ℤ := Int.fdiv q.num q.den

/-- The apostrophe character, used in several insight message templates. -/
def apos : String := String.singleton (Char.ofNat 39)

/-- Left-pad a digit string with zeros to the given length. -/
def padZeros (len : Nat) (s : String) : String :=
  if s.length < len then String.mk (List.replicate (len - s.length) (Char.ofNat 48)) ++ s
  else s

/-- Fixed-point rendering of a natural number scaled by `10 ^ nd`. -/
def natFixed (nd : Nat) (n : Nat) : String :=
  if nd = 0 then toString n
  else toString (n / 10 ^ nd) ++ "." ++ padZeros nd (toString (n % 10 ^ nd))

/-- Model of JavaScript `Number.prototype.toFixed(nd)` on exact rationals:
round to the nearest multiple of `10 ^ (-nd)`, taking the larger value on ties,
then render with exactly `nd` fractional digits. -/
def toFixed (nd : Nat) (q : ℚ) : String :=
  let n : ℤ := ratFloor (q * (10 : ℚ) ^ nd + 1 / 2)
  if n < 0 then "-" ++ natFixed nd n.natAbs else natFixed nd n.natAbs

/-- Model of `Date.toLocaleDateString()` in the en-US locale: `M/D/YYYY`. -/
def localeDateString (d : SDate) : String :=
  toString d.month ++ "/" ++ toString d.day ++ "/" ++ toString d.year

/-- Gregorian leap-year test. -/
def isLeap (y : Nat) : Bool := y % 4 == 0 && (y % 100 != 0 || y % 400 == 0)

/-- Number of days in the given month (1-based), as computed by the front end
via `new Date(year, month + 1, 0).getDate()`. -/
def daysInMonth (y m : Nat) : Nat :=
  if m == 2 then (if isLeap y then 29 else 28)
  else if m == 4 || m == 6 || m == 9 || m == 11 then 30
  else 31

/-- Day number of a calendar date (days-from-civil algorithm), modelling
`Date.getTime()` divided by 86 400 000 for a midnight-UTC date. -/
def dayNumber (d : SDate) : ℤ :=
  let Y : ℤ := d.year
  let M : ℤ := d.month
  let D : ℤ := d.day
  let y := if M ≤ 2 then Y - 1 else Y
  let era := (if 0 ≤ y then y else y - 399) / 400
  let yoe := y - era * 400
  let mp := (M + 9) % 12
  let doy := (153 * mp + 2) / 5 + D - 1
  let doe := yoe * 365 + yoe / 4 - yoe / 100 + doy
  era * 146097 + doe - 719468

/-- `(now − transactionDate)` in days, as the front end computes
`(now.getTime() - expenseDate.getTime()) / (1000 * 3600 * 24)`: the whole-day
difference plus the fraction `frac` of the current day already elapsed
(the stored dates are midnight timestamps, `now` carries a time of day). -/
def daysDiff (now : SDate) (frac : ℚ) (d : SDate) : ℚ :=
  ((dayNumber now - dayNumber d : ℤ) : ℚ) + frac

/-- One step of the `expenses.reduce` accumulation building the per-date
spending map: add the amount to the date's bucket, creating the bucket at the
end on first sight (JavaScript object keys keep insertion order). -/
def addToDaily (acc : List (SDate × ℚ)) (d : SDate) (a : ℚ) : List (SDate × ℚ) :=
  if acc.any (fun p => p.1 == d) then
    acc.map fun p => if p.1 == d then (p.1, p.2 + a) else p
  else acc ++ [(d, a)]

/-- The `dailySpending` map: transaction amounts bucketed by calendar date. -/
def dailySpendingMap (es : List Expense) : List (SDate × ℚ) :=
  es.foldl (fun acc e => addToDaily acc e.date e.amount) []

/-- The `type` tag of a generated insight. -/
inductive InsightKind where
  | warning
  | suggestion
  | achievement
  | trend
deriving DecidableEq, Repr

/-- The priority tag of a generated insight. -/
inductive InsightPriority where
  | high
  | medium
  | low
deriving DecidableEq, Repr

/-- A generated insight record (interface `Insight` in DataInsights.tsx;
the TS field `type` is called `kind` here). -/
structure Insight where
  kind : InsightKind
  title : String
  description : String
  action : Option String
  priority : InsightPriority
  category : Option String
  value : Option ℚ
deriving DecidableEq, Repr

/-- The `priorityOrder` table: high 3, medium 2, low 1. -/
def priorityOrder : InsightPriority → ℚ
  | .high => 3
  | .medium => 2
  | .low => 1

/-- Insert into a list sorted by strictly decreasing key, after all entries with
a strictly larger key and before any entry with an equal or smaller key
(so earlier-generated entries with an equal key stay first). -/
def insertDescBy {α : Type} (k : α → ℚ) (x : α) : List α → List α
  | [] => [x]
  | y :: ys => if k x < k y then y :: insertDescBy k x ys else x :: y :: ys

/-- Stable sort by decreasing key, modelling JavaScript `Array.prototype.sort`
with a comparator of the form `(a, b) => k(b) - k(a)` (the language requires
the sort to be stable). -/
def sortDescBy {α : Type} (k : α → ℚ) : List α → List α
  | [] => []
  | x :: xs => insertDescBy k x (sortDescBy k xs)

/-- The over-budget warning pushed by the budget-analysis rule. -/
def overBudgetInsight (i : SummaryRow) (utilizationRate : ℚ) : Insight :=
  { kind := .warning
    title := "Over Budget: " ++ i.category_name
    description := "You" ++ apos ++ "ve exceeded your " ++ i.category_name ++
      " budget by $" ++ toFixed 2 (i.total_spent - i.budget_amount) ++
      " (" ++ toFixed 1 (utilizationRate - 100) ++ "% over)"
    action := some "Consider reducing spending in this category"
    priority := .high
    category := some i.category_name
    value := some (i.total_spent - i.budget_amount) }

/-- The approaching-limit warning pushed by the budget-analysis rule. -/
def approachingLimitInsight (i : SummaryRow) (utilizationRate : ℚ) (now : SDate) :
    Insight :=
  { kind := .warning
    title := "Approaching Budget Limit: " ++ i.category_name
    description := "You" ++ apos ++ "ve used " ++ toFixed 1 utilizationRate ++
      "% of your " ++ i.category_name ++ " budget with " ++
      toString ((daysInMonth now.year now.month : ℤ) - now.day) ++ " days remaining"
    action := some "Monitor spending closely"
    priority := .medium
    category := some i.category_name
    value := none }

/-- Rule block 1 ("Budget Analysis") of `generateInsights`: per summary with a
positive budget, an over-budget warning above 100% utilization, an
approaching-limit warning above 80%. -/
def budgetBlock (summaries : List SummaryRow) (now : SDate) : List Insight :=
  (summaries.map fun i =>
    if 0 < i.budget_amount then
      let utilizationRate := i.total_spent / i.budget_amount * 100
      if 100 < utilizationRate then [overBudgetInsight i utilizationRate]
      else if 80 < utilizationRate then [approachingLimitInsight i utilizationRate now]
      else []
    else []).flatten

/-- Rule block 2 ("Spending Patterns") of `generateInsights`: report the single
highest spending day among days exceeding twice the per-active-day average. -/
def spikeBlock (expenses : List Expense) : List Insight :=
  let daily := dailySpendingMap expenses
  let totalSpent := (daily.map (·.2)).sum
  let avgDailySpending := totalSpent / (daily.length : ℚ)
  let highSpendingDays := sortDescBy (·.2)
    (daily.filter fun p => decide (avgDailySpending * 2 < p.2))
  match highSpendingDays with
  | [] => []
  | (d, amount) :: _ =>
    [{ kind := .trend
       title := "High Spending Day Detected"
       description := "Your highest spending day was " ++ localeDateString d ++
         " with $" ++ toFixed 2 amount ++ " spent (" ++
         toFixed 0 ((amount / avgDailySpending - 1) * 100) ++ "% above average)"
       action := some "Review what caused this spike"
       priority := .medium
       category := none
       value := some amount }]

/-- Rule block 3 ("Category Insights") of `generateInsights`: concentration-risk
warning when the top category holds more than 40% of the spend of categories
with nonzero spend. -/
def concentrationBlock (summaries : List SummaryRow) : List Insight :=
  let sortedCategories := sortDescBy (·.total_spent)
    (summaries.filter fun i => decide (0 < i.total_spent))
  match sortedCategories with
  | [] => []
  | topCategory :: _ =>
    let catTotal := (sortedCategories.map (·.total_spent)).sum
    let percentage := topCategory.total_spent / catTotal * 100
    if 40 < percentage then
      [{ kind := .warning
         title := "Spending Concentration Risk"
         description := toFixed 1 percentage ++ "% of your spending is in " ++
           topCategory.category_name ++ ". Consider diversifying your expenses."
         action := some "Review if this allocation aligns with your priorities"
         priority := .medium
         category := some topCategory.category_name
         value := none }]
    else []

/-- Rule block 4 ("Frequency Analysis") of `generateInsights`: suggestion for
categories with more than 20 transactions averaging under $10. -/
def frequencyBlock (summaries : List SummaryRow) : List Insight :=
  (summaries.map fun i =>
    if 0 < i.transaction_count then
      let avgTransactionSize := i.total_spent / (i.transaction_count : ℚ)
      if 20 < i.transaction_count ∧ avgTransactionSize < 10 then
        [{ kind := .suggestion
           title := "Frequent Small Purchases: " ++ i.category_name
           description := "You made " ++ toString i.transaction_count ++
             " transactions averaging $" ++ toFixed 2 avgTransactionSize ++
             " each. These small purchases add up to $" ++
             toFixed 2 i.total_spent ++ "."
           action := some "Consider bundling purchases or setting spending limits"
           priority := .low
           category := some i.category_name
           value := none }]
      else []
    else []).flatten

/-- Rule block 5 ("Positive Insights") of `generateInsights`: achievement for
the under-80%-utilization category with the largest absolute remaining budget
(JavaScript `reduce` without initial value: first element seeds the fold). -/
def positiveBlock (summaries : List SummaryRow) : List Insight :=
  let categoriesUnderBudget := summaries.filter fun i =>
    decide (0 < i.budget_amount) && decide (i.total_spent < i.budget_amount * 0.8)
  match categoriesUnderBudget with
  | [] => []
  | h :: t =>
    let bestCategory := t.foldl (fun best current =>
      if best.budget_amount - best.total_spent <
          current.budget_amount - current.total_spent then current else best) h
    [{ kind := .achievement
       title := "Great Budget Management: " ++ bestCategory.category_name
       description := "You" ++ apos ++ "re $" ++
         toFixed 2 (bestCategory.budget_amount - bestCategory.total_spent) ++
         " under budget in " ++ bestCategory.category_name ++ "!"
       action := some "Keep up the good work"
       priority := .low
       category := some bestCategory.category_name
       value := none }]

/-- Rule block 6 ("Trend Analysis") of `generateInsights`: week-over-week
spending change, reported when the previous week had spending and the change
exceeds 20% in magnitude; 50% escalates the priority to high. -/
def trendBlock (expenses : List Expense) (now : SDate) (frac : ℚ) : List Insight :=
  let last7Days := expenses.filter fun e => decide (daysDiff now frac e.date ≤ 7)
  let previous7Days := expenses.filter fun e =>
    decide (7 < daysDiff now frac e.date) && decide (daysDiff now frac e.date ≤ 14)
  let recentSpending := (last7Days.map (·.amount)).sum
  let previousSpending := (previous7Days.map (·.amount)).sum
  if 0 < previousSpending then
    let changePercent := (recentSpending - previousSpending) / previousSpending * 100
    if 20 < |changePercent| then
      [{ kind := if 0 < changePercent then .warning else .achievement
         title := "Spending Trend: " ++
           (if 0 < changePercent then "Increasing" else "Decreasing")
         description := "Your spending " ++
           (if 0 < changePercent then "increased" else "decreased") ++ " by " ++
           toFixed 1 |changePercent| ++ "% compared to the previous week"
         action := some (if 0 < changePercent then
           "Consider what caused this increase" else "Great job reducing spending!")
         priority := if 50 < |changePercent| then .high else .medium
         category := none
         value := none }]
    else []
  else []

/-- Shallow embedding of `generateInsights` in DataInsights.tsx before the final
priority sort: the rule blocks in source order, each contributing its pushed
insights in push order.  `now` is the calendar date of `new Date()` and `frac`
the fraction of that day already elapsed. -/
def generateInsightsRaw (expenses : List Expense) (summaries : List SummaryRow)
    (now : SDate) (frac : ℚ) : List Insight :=
  budgetBlock summaries now ++ spikeBlock expenses ++
    concentrationBlock summaries ++ frequencyBlock summaries ++
    positiveBlock summaries ++ trendBlock expenses now frac

/-- `generateInsights`: the rule outputs, sorted by priority descending with the
stable comparator sort `(a, b) => priorityOrder[b.priority] - priorityOrder[a.priority]`. -/
def generateInsights (expenses : List Expense) (summaries : List SummaryRow)
    (now : SDate) (frac : ℚ) : List Insight :=
  sortDescBy (fun i => priorityOrder i.priority)
    (generateInsightsRaw expenses summaries now frac)

/-- The `Object.values(dailySpending)` list: per-day spending totals in key
insertion order. -/
def spendingValues (es : List Expense) : List ℚ :=
  (dailySpendingMap es).map (·.2)

/-- `avgSpending`: mean of the per-day totals (JavaScript yields `NaN` on an
empty list; the total division of the reals yields `0`, and both fail the
`avgSpending > 0` guard below, the only place the value is consumed). -/
noncomputable def meanDaily (l : List ℚ) : ℝ :=
  ((l.map fun q => (q : ℝ)).sum) / (l.length : ℝ)

/-- `variance`: population variance of the per-day totals. -/
noncomputable def varianceDaily (l : List ℚ) : ℝ :=
  ((l.map fun q => ((q : ℝ) - meanDaily l) ^ 2).sum) / (l.length : ℝ)

/-- `standardDeviation = Math.sqrt(variance)`. -/
noncomputable def stdDevDaily (l : List ℚ) : ℝ :=
  Real.sqrt (varianceDaily l)

/-- `coefficientOfVariation = avgSpending > 0 ? standardDeviation / avgSpending : 1`. -/
noncomputable def coefficientOfVariation (l : List ℚ) : ℝ :=
  if 0 < meanDaily l then stdDevDaily l / meanDaily l else 1

/-- `confidence = Math.max(0.3, 1 - coefficientOfVariation)`, computed in
`generatePredictions` from the full expense list (the same value is attached to
every category's prediction). -/
noncomputable def confidence (es : List Expense) : ℝ :=
  max 0.3 (1 - coefficientOfVariation (spendingValues es))

/-- A per-category budget prediction (interface `Prediction` in
PredictiveAnalytics.tsx). -/
inductive RiskLevel where
  | low
  | medium
  | high
deriving DecidableEq, Repr

/-- A per-category budget prediction record. -/
structure Prediction where
  category : String
  currentSpent : ℚ
  predictedTotal : ℚ
  budget : ℚ
  confidence : ℝ
  riskLevel : RiskLevel
  daysRemaining : ℤ

/-- The prediction built for one summary row inside `generatePredictions`:
linear extrapolation of the spending rate so far, with risk tiering on the
predicted budget utilization. -/
noncomputable def predictionFor (i : SummaryRow) (expenses : List Expense)
    (daysInMon daysPassed : ℕ) : Prediction :=
  let spendingRate := i.total_spent / (daysPassed : ℚ)
  let predictedTotal := spendingRate * (daysInMon : ℚ)
  let budgetUtilization := predictedTotal / i.budget_amount
  { category := i.category_name
    currentSpent := i.total_spent
    predictedTotal := predictedTotal
    budget := i.budget_amount
    confidence := confidence expenses
    riskLevel :=
      if 1.2 < budgetUtilization then .high
      else if 0.9 < budgetUtilization then .medium
      else .low
    daysRemaining := (daysInMon : ℤ) - (daysPassed : ℤ) }

/-- Shallow embedding of `generatePredictions` in PredictiveAnalytics.tsx:
one prediction per summary whose budget is positive.  `daysInMon` and
`daysPassed` stand for the values the component reads off `new Date()`. -/
noncomputable def generatePredictions (summaries : List SummaryRow)
    (expenses : List Expense) (daysInMon daysPassed : ℕ) : List Prediction :=
  (summaries.filter fun i => decide (0 < i.budget_amount)).map
    fun i => predictionFor i expenses daysInMon daysPassed

/-- One point of the monthly projection series. -/
structure ProjPoint where
  day : ℕ
  actual : Option ℚ
  predicted : ℚ
  isProjected : Bool
deriving DecidableEq, Repr

/-- The loop state of `generateMonthlyProjection` after processing the given
day: `(cumulativeActual, cumulativePredicted)`.  For days up to `daysPassed`
the two coincide; afterwards only the prediction advances, by the average
daily spending. -/
def projState (actual : ℕ → ℚ) (daysPassed : ℕ) (avg : ℚ) : ℕ → ℚ × ℚ
  | 0 => (0, 0)
  | d + 1 =>
    let p := projState actual daysPassed avg d
    if d + 1 ≤ daysPassed then (p.1 + actual (d + 1), p.1 + actual (d + 1))
    else (p.1, p.2 + avg)

/-- `dailySpending[dateStr] || 0` for day `day` of month `m`/`y`: the bucket
total for that date, `0` when absent. -/
def actualSpendingFn (expenses : List Expense) (y m : ℕ) : ℕ → ℚ := fun day =>
  match ((dailySpendingMap expenses).filter fun p =>
      p.1 == SDate.mk y m day).head? with
  | none => 0
  | some p => p.2

/-- `avgDailySpending = totalSpent / daysPassed`, with
`totalSpent = insights.reduce((sum, insight) => sum + insight.total_spent, 0)`. -/
def avgDailySpending (summaries : List SummaryRow) (daysPassed : ℕ) : ℚ :=
  ((summaries.map (·.total_spent)).sum) / (daysPassed : ℚ)

/-- Shallow embedding of `generateMonthlyProjection` in PredictiveAnalytics.tsx.
`y`/`m` are the current year and 1-based month (the code builds the key string
from `currentMonth + 1`), `daysInMon = new Date(y, m, 0).getDate()` and
`daysPassed = now.getDate()`. -/
def generateMonthlyProjection (expenses : List Expense)
    (summaries : List SummaryRow) (y m daysInMon daysPassed : ℕ) :
    List ProjPoint :=
  (List.range' 1 daysInMon).map fun day =>
    let st := projState (actualSpendingFn expenses y m) daysPassed
      (avgDailySpending summaries daysPassed) day
    { day := day
      actual := if day ≤ daysPassed then some st.1 else none
      predicted := st.2
      isProjected := decide (daysPassed < day) }

/-- A fetched expense row as seen by `exportData` in AnalyticsDashboard.tsx:
the joined `expense_categories` relation is `null` (here `none`) when the
referenced category is absent from the catalog. -/
structure ExportExpense where
  date : SDate
  amount : ℚ
  description : String
  categoryName : Option String
  paymentMethod : String
deriving DecidableEq, Repr

/-- One CSV record built by `exportData`. -/
structure ExportRow where
  date : SDate
  amount : ℚ
  description : String
  category : String
  paymentMethod : String
deriving DecidableEq, Repr

/-- `expense.expense_categories?.name || 'Unknown'`: JavaScript `||` falls
through on every falsy value, so both a missing join row and an empty name
become `"Unknown"`. -/
def categoryLabel (n : Option String) : String :=
  match n with
  | none => "Unknown"
  | some s => if s = "" then "Unknown" else s

/-- The CSV rows built by `exportData` (the serialization itself is omitted). -/
def exportRows (es : List ExportExpense) : List ExportRow :=
  es.map fun e =>
    { date := e.date
      amount := e.amount
      description := e.description
      category := categoryLabel e.categoryName
      paymentMethod := e.paymentMethod }

section SortLemmas

lemma insertCatByName_perm (c : Category) (l : List Category) :
    List.Perm (insertCatByName c l) (c :: l) := by
  induction l with
  | nil => exact List.Perm.refl _
  | cons d ds ih =>
    unfold insertCatByName
    split
    · exact (ih.cons d).trans (List.Perm.swap c d ds)
    · exact List.Perm.refl _

lemma sortCatsByName_perm (l : List Category) :
    List.Perm (sortCatsByName l) l := by
  induction l with
  | nil => exact List.Perm.refl _
  | cons c cs ih =>
    exact (insertCatByName_perm c (sortCatsByName cs)).trans (ih.cons c)

end SortLemmas

section PartitionLemmas

/-- Summing `if k == c.id then a else 0` over a catalog with distinct ids
containing `k` yields exactly `a`: the key hypothesis ruling out double
counting in the aggregation. -/
lemma sum_single_hit (cats : List Category) (k : String) (a : ℚ)
    (hnd : (cats.map (·.id)).Nodup) (hk : k ∈ cats.map (·.id)) :
    (cats.map fun c => if k = c.id then a else 0).sum = a := by
  induction cats with
  | nil => simp at hk
  | cons c cs ih =>
    rw [List.map_cons, List.nodup_cons] at hnd
    rw [List.map_cons, List.sum_cons]
    by_cases h : k = c.id
    · have hz : (cs.map fun c' => if k = c'.id then a else 0).sum = 0 := by
        apply List.sum_eq_zero
        intro x hx
        rcases List.mem_map.mp hx with ⟨c', hc', rfl⟩
        have hne : ¬k = c'.id := by
          intro hkk
          exact hnd.1 (List.mem_map.mpr ⟨c', hc', by rw [← hkk]; exact h⟩)
        simp [hne]
      rw [if_pos h, hz, add_zero]
    · have hk' : k ∈ cs.map (·.id) := by
        rcases List.mem_map.mp hk with ⟨c', hc', rfl⟩
        rcases List.mem_cons.mp hc' with rfl | hmem
        · exact absurd rfl h
        · exact List.mem_map.mpr ⟨c', hmem, rfl⟩
      simp [h, ih hnd.2 hk']

/-- Splitting by category neither drops nor double-counts: the per-category
filtered sums over a duplicate-free catalog covering every relevant category id
add up to the unsplit filtered sum. -/
lemma sum_partition (cats : List Category) (es : List Expense) (p : Expense → Bool)
    (hnd : (cats.map (·.id)).Nodup)
    (hfk : ∀ e ∈ es, p e = true → e.categoryId ∈ cats.map (·.id)) :
    (cats.map fun c =>
      ((es.filter fun e => p e && e.categoryId == c.id).map (·.amount)).sum).sum
    = ((es.filter p).map (·.amount)).sum := by
  induction es with
  | nil => simp
  | cons e es ih =>
    have hfk' : ∀ e' ∈ es, p e' = true → e'.categoryId ∈ cats.map (·.id) :=
      fun e' h => hfk e' (List.mem_cons_of_mem _ h)
    have hmap : (cats.map fun c =>
        ((List.filter (fun e' => p e' && e'.categoryId == c.id) (e :: es)).map
          (·.amount)).sum)
        = cats.map fun c =>
          ((if p e && e.categoryId == c.id then e.amount else 0) +
            ((es.filter fun e' => p e' && e'.categoryId == c.id).map
              (·.amount)).sum) := by
      apply List.map_congr_left
      intro c _
      rw [List.filter_cons]
      split
      · simp
      · simp
    rw [hmap, List.sum_map_add, ih hfk', List.filter_cons]
    by_cases hp : p e = true
    · have hone : (cats.map fun c =>
          if p e && e.categoryId == c.id then e.amount else 0).sum = e.amount := by
        have hcg : (cats.map fun c =>
            if p e && e.categoryId == c.id then e.amount else 0)
            = cats.map fun c => if e.categoryId = c.id then e.amount else 0 := by
          apply List.map_congr_left
          intro c _
          simp [hp]
        rw [hcg]
        exact sum_single_hit cats e.categoryId e.amount hnd
          (hfk e (List.mem_cons_self e es) hp)
      rw [hone, if_pos hp, List.map_cons, List.sum_cons]
    · have hp' : p e = false := by simpa using hp
      have hzero : (cats.map fun c =>
          if p e && e.categoryId == c.id then e.amount else 0).sum = 0 := by
        apply List.sum_eq_zero
        intro x hx
        rcases List.mem_map.mp hx with ⟨c, _, rfl⟩
        simp [hp']
      rw [hzero, if_neg (by simp [hp']), zero_add]

end PartitionLemmas

/-- C1: For every user and target month/year, each summary row returned by the
aggregation belongs to a catalog category and carries exactly the sum and count
of that user's in-period transactions in that category; and — provided the
catalog's category ids are distinct (its primary key) and every in-period
transaction's category id appears in the catalog (its foreign key) — the
summary totals add up to the total of the user's in-period transaction
amounts, with no transaction double-counted or dropped. -/
theorem aggregation_totals_partition (s : DBState) (u : String) (m y : Nat)
    (hnd : (s.categories.map (·.id)).Nodup)
    (hfk : ∀ e ∈ s.expenses, inPeriodFor u m y e = true →
      e.categoryId ∈ s.categories.map (·.id)) :
    (∀ r ∈ calculate_spending_insights s u m y, ∃ c ∈ s.categories,
        r.category_name = c.name ∧
        r.total_spent = ((s.expenses.filter fun e =>
          inPeriodFor u m y e && e.categoryId == c.id).map (·.amount)).sum ∧
        r.transaction_count = (s.expenses.filter fun e =>
          inPeriodFor u m y e && e.categoryId == c.id).length) ∧
    ((calculate_spending_insights s u m y).map (·.total_spent)).sum
      = ((s.expenses.filter fun e => inPeriodFor u m y e).map (·.amount)).sum := by
  constructor
  · intro r hr
    rcases List.mem_map.mp hr with ⟨c, hc, rfl⟩
    exact ⟨c, (sortCatsByName_perm s.categories).mem_iff.mp hc, rfl, rfl, rfl⟩
  · have h1 : (calculate_spending_insights s u m y).map (·.total_spent)
        = (sortCatsByName s.categories).map fun c =>
            ((s.expenses.filter fun e =>
              inPeriodFor u m y e && e.categoryId == c.id).map (·.amount)).sum := by
      rw [calculate_spending_insights, List.map_map]
      apply List.map_congr_left
      intro c _
      rfl
    have hperm := ((sortCatsByName_perm s.categories).map fun c =>
      ((s.expenses.filter fun e =>
        inPeriodFor u m y e && e.categoryId == c.id).map (·.amount)).sum)
    rw [h1, hperm.sum_eq]
    exact sum_partition s.categories s.expenses (inPeriodFor u m y) hnd hfk

/-- Concrete state exercising the aggregation: two categories, transactions of
two users across two months, one budget row. -/
def c1State : DBState :=
  { categories := [⟨"food", "Food", "#ef4444"⟩, ⟨"fun", "Entertainment", "#f59e0b"⟩]
    expenses :=
      [⟨"u1", 30, "pizza", "food", ⟨2024, 3, 5⟩⟩,
       ⟨"u1", 20, "movie", "fun", ⟨2024, 3, 7⟩⟩,
       ⟨"u2", 99, "someone else", "food", ⟨2024, 3, 8⟩⟩,
       ⟨"u1", 5, "previous month", "food", ⟨2024, 2, 1⟩⟩]
    budgets := [⟨"u1", "food", 100, 3, 2024⟩] }

theorem aggregation_totals_partition_witness :
    ((c1State.categories.map (·.id)).Nodup ∧
      ∀ e ∈ c1State.expenses, inPeriodFor "u1" 3 2024 e = true →
        e.categoryId ∈ c1State.categories.map (·.id)) ∧
    ((∀ r ∈ calculate_spending_insights c1State "u1" 3 2024, ∃ c ∈ c1State.categories,
        r.category_name = c.name ∧
        r.total_spent = ((c1State.expenses.filter fun e =>
          inPeriodFor "u1" 3 2024 e && e.categoryId == c.id).map (·.amount)).sum ∧
        r.transaction_count = (c1State.expenses.filter fun e =>
          inPeriodFor "u1" 3 2024 e && e.categoryId == c.id).length) ∧
      ((calculate_spending_insights c1State "u1" 3 2024).map (·.total_spent)).sum
        = ((c1State.expenses.filter fun e =>
            inPeriodFor "u1" 3 2024 e).map (·.amount)).sum) :=
  ⟨⟨by decide, by decide⟩,
    aggregation_totals_partition c1State "u1" 3 2024 (by decide) (by decide)⟩

/-- C2: `generateInsights` (a total function here, so it cannot raise) returns
the empty list on an empty transaction list with all-zero derived summaries. -/
theorem generateInsights_empty (summaries : List SummaryRow) (now : SDate) (frac : ℚ)
    (hz : ∀ i ∈ summaries,
      i.total_spent = 0 ∧ i.budget_amount = 0 ∧ i.transaction_count = 0) :
    generateInsights [] summaries now frac = [] := by
  have hb : budgetBlock summaries now = [] := by
    unfold budgetBlock
    rw [List.flatten_eq_nil_iff]
    intro l hl
    rcases List.mem_map.mp hl with ⟨i, hi, rfl⟩
    simp [(hz i hi).2.1]
  have hs : spikeBlock [] = [] := rfl
  have hc : concentrationBlock summaries = [] := by
    have hfil : (summaries.filter fun i => decide (0 < i.total_spent)) = [] := by
      rw [List.filter_eq_nil_iff]
      intro i hi
      simp [(hz i hi).1]
    unfold concentrationBlock
    rw [hfil]
    rfl
  have hf : frequencyBlock summaries = [] := by
    unfold frequencyBlock
    rw [List.flatten_eq_nil_iff]
    intro l hl
    rcases List.mem_map.mp hl with ⟨i, hi, rfl⟩
    simp [(hz i hi).2.2]
  have hpos : positiveBlock summaries = [] := by
    have hfil : (summaries.filter fun i =>
        decide (0 < i.budget_amount) &&
          decide (i.total_spent < i.budget_amount * 0.8)) = [] := by
      rw [List.filter_eq_nil_iff]
      intro i hi
      simp [(hz i hi).2.1]
    unfold positiveBlock
    rw [hfil]
  have ht : trendBlock [] now frac = [] := rfl
  unfold generateInsights generateInsightsRaw
  rw [hb, hs, hc, hf, hpos, ht]
  rfl

theorem generateInsights_empty_witness :
    (∀ i ∈ [SummaryRow.mk "Food" 0 0 0 0],
      i.total_spent = 0 ∧ i.budget_amount = 0 ∧ i.transaction_count = 0) ∧
    generateInsights [] [SummaryRow.mk "Food" 0 0 0 0] ⟨2024, 3, 15⟩ 0 = [] :=
  ⟨by decide, generateInsights_empty [SummaryRow.mk "Food" 0 0 0 0] ⟨2024, 3, 15⟩ 0
    (by decide)⟩

section StableSortLemmas

lemma insertDescBy_perm {α : Type} (k : α → ℚ) (x : α) (l : List α) :
    List.Perm (insertDescBy k x l) (x :: l) := by
  induction l with
  | nil => exact List.Perm.refl _
  | cons y ys ih =>
    unfold insertDescBy
    split
    · exact (ih.cons y).trans (List.Perm.swap x y ys)
    · exact List.Perm.refl _

lemma pairwise_insertDescBy {α : Type} (k : α → ℚ) (x : α) (l : List α)
    (h : l.Pairwise fun a b => k b ≤ k a) :
    (insertDescBy k x l).Pairwise fun a b => k b ≤ k a := by
  induction l with
  | nil => simp [insertDescBy]
  | cons y ys ih =>
    rw [List.pairwise_cons] at h
    unfold insertDescBy
    split
    · rename_i hlt
      rw [List.pairwise_cons]
      refine ⟨fun z hz => ?_, ih h.2⟩
      rcases List.mem_cons.mp ((insertDescBy_perm k x ys).mem_iff.mp hz) with rfl | hmem
      · exact le_of_lt hlt
      · exact h.1 z hmem
    · rename_i hge
      rw [List.pairwise_cons]
      refine ⟨fun z hz => ?_, List.pairwise_cons.mpr h⟩
      rcases List.mem_cons.mp hz with rfl | hmem
      · exact le_of_not_lt hge
      · exact (h.1 z hmem).trans (le_of_not_lt hge)

lemma sortDescBy_pairwise {α : Type} (k : α → ℚ) (l : List α) :
    (sortDescBy k l).Pairwise fun a b => k b ≤ k a := by
  induction l with
  | nil => simp [sortDescBy]
  | cons x xs ih => exact pairwise_insertDescBy k x _ ih

lemma filter_insertDescBy {α : Type} (k : α → ℚ) (pr : α → Bool) (x : α)
    (l : List α) (hkey : ∀ a b, pr a = true → pr b = true → k a = k b) :
    (insertDescBy k x l).filter pr
      = if pr x then x :: l.filter pr else l.filter pr := by
  induction l with
  | nil =>
    unfold insertDescBy
    rw [List.filter_cons]
  | cons y ys ih =>
    unfold insertDescBy
    split
    · rename_i hlt
      rw [List.filter_cons, ih]
      by_cases hx : pr x = true
      · have hy : pr y = false := by
          by_cases hy' : pr y = true
          · exact absurd (hkey x y hx hy') (ne_of_lt hlt)
          · simpa using hy'
        simp [hx, hy, List.filter_cons]
      · have hx' : pr x = false := by simpa using hx
        simp [hx', List.filter_cons]
    · rw [List.filter_cons]

lemma filter_sortDescBy {α : Type} (k : α → ℚ) (pr : α → Bool)
    (hkey : ∀ a b, pr a = true → pr b = true → k a = k b) (l : List α) :
    (sortDescBy k l).filter pr = l.filter pr := by
  induction l with
  | nil => rfl
  | cons x xs ih =>
    unfold sortDescBy
    rw [filter_insertDescBy k pr x _ hkey, List.filter_cons, ih]

end StableSortLemmas

/-- C4: the insight list returned by `generateInsights` is sorted by priority
descending (high = 3, medium = 2, low = 1) — in particular no high-priority
insight comes after a medium- or low-priority one — and the sort is stable:
for each priority level, the subsequence at that level equals the
subsequence of the rule outputs in generation order. -/
theorem generateInsights_sorted_stable (expenses : List Expense)
    (summaries : List SummaryRow) (now : SDate) (frac : ℚ) :
    (generateInsights expenses summaries now frac).Pairwise
      (fun a b => priorityOrder b.priority ≤ priorityOrder a.priority) ∧
    ∀ p : InsightPriority,
      (generateInsights expenses summaries now frac).filter
          (fun i => i.priority == p)
        = (generateInsightsRaw expenses summaries now frac).filter
          (fun i => i.priority == p) := by
  unfold generateInsights
  constructor
  · exact sortDescBy_pairwise _ _
  · intro p
    apply filter_sortDescBy
    intro a b ha hb
    have ha' : a.priority = p := by simpa using ha
    have hb' : b.priority = p := by simpa using hb
    rw [ha', hb']

/-- The data of the spec's worked example: one transaction of 120 on
2024-03-05 in category `food`, one budget of 100 for `food` in March 2024. -/
def c3State : DBState :=
  { categories := [⟨"food", "Food", "#ef4444"⟩]
    expenses := [⟨"u1", 120, "groceries", "food", ⟨2024, 3, 5⟩⟩]
    budgets := [⟨"u1", "food", 100, 3, 2024⟩] }

unseal Rat.add Rat.sub Rat.mul Rat.inv Nat.gcd Rat.ofScientific in
/-- C3: on the worked example, aggregation for March 2024 yields the summary
(Food, 120 spent, 100 budget, −20 remaining, 1 transaction), and
`generateInsights` on it contains an over-budget warning of priority high whose
message states the $20.00 overspend and the 20.0% over-budget percentage. -/
theorem example_overbudget_insight :
    calculate_spending_insights c3State "u1" 3 2024
      = [⟨"Food", 120, 100, -20, 1⟩] ∧
    ∃ ins ∈ generateInsights c3State.expenses
        (calculate_spending_insights c3State "u1" 3 2024) ⟨2024, 3, 15⟩ 0,
      ins.kind = InsightKind.warning ∧ ins.priority = InsightPriority.high ∧
      ins.title = "Over Budget: Food" ∧
      ins.description = "You" ++ apos ++
        "ve exceeded your Food budget by $20.00 (20.0% over)" ∧
      ins.value = some 20 := by
  decide

lemma riskLevel_tiering (u : ℚ) :
    ((if 1.2 < u then RiskLevel.high else if 0.9 < u then RiskLevel.medium
        else RiskLevel.low) = RiskLevel.high ↔ 1.2 < u) ∧
    ((if 1.2 < u then RiskLevel.high else if 0.9 < u then RiskLevel.medium
        else RiskLevel.low) = RiskLevel.medium ↔ 0.9 < u ∧ u ≤ 1.2) ∧
    ((if 1.2 < u then RiskLevel.high else if 0.9 < u then RiskLevel.medium
        else RiskLevel.low) = RiskLevel.low ↔ u ≤ 0.9) := by
  split_ifs with h1 h2
  · refine ⟨⟨fun _ => h1, fun _ => rfl⟩, ?_, ?_⟩
    · constructor
      · intro h
        cases h
      · intro h
        exact absurd h1 (not_lt.mpr h.2)
    · constructor
      · intro h
        cases h
      · intro h
        exact absurd h1 (not_lt.mpr (h.trans (by norm_num)))
  · refine ⟨?_, ⟨fun _ => ⟨h2, not_lt.mp h1⟩, fun _ => rfl⟩, ?_⟩
    · constructor
      · intro h
        cases h
      · intro h
        exact absurd h h1
    · constructor
      · intro h
        cases h
      · intro h
        exact absurd h2 (not_lt.mpr h)
  · refine ⟨?_, ?_, ⟨fun _ => not_lt.mp h2, fun _ => rfl⟩⟩
    · constructor
      · intro h
        cases h
      · intro h
        exact absurd h h1
    · constructor
      · intro h
        cases h
      · intro h
        exact absurd h.1 h2

/-- C5: `generatePredictions` yields exactly one prediction per summary with a
positive budget (same count, same categories, in order), never one for a
zero-budget summary, and each prediction extrapolates
`predictedTotal = (totalSpent / daysElapsed) × daysInMonth` with risk tier
high iff the predicted utilization exceeds 1.2, medium iff it is in (0.9, 1.2],
and low otherwise. -/
theorem generatePredictions_spec (summaries : List SummaryRow)
    (expenses : List Expense) (dim dp : ℕ) :
    (generatePredictions summaries expenses dim dp).length
      = (summaries.filter fun i => decide (0 < i.budget_amount)).length ∧
    (generatePredictions summaries expenses dim dp).map (·.category)
      = (summaries.filter fun i => decide (0 < i.budget_amount)).map
          (·.category_name) ∧
    ∀ p ∈ generatePredictions summaries expenses dim dp,
      0 < p.budget ∧
      p.predictedTotal = p.currentSpent / (dp : ℚ) * (dim : ℚ) ∧
      (p.riskLevel = RiskLevel.high ↔ 1.2 < p.predictedTotal / p.budget) ∧
      (p.riskLevel = RiskLevel.medium ↔
        (0.9 < p.predictedTotal / p.budget ∧ p.predictedTotal / p.budget ≤ 1.2)) ∧
      (p.riskLevel = RiskLevel.low ↔ p.predictedTotal / p.budget ≤ 0.9) := by
  refine ⟨?_, ?_, ?_⟩
  · unfold generatePredictions
    rw [List.length_map]
  · unfold generatePredictions
    rw [List.map_map]
    rfl
  · intro p hp
    unfold generatePredictions at hp
    rcases List.mem_map.mp hp with ⟨i, hi, rfl⟩
    have hb : 0 < i.budget_amount := by
      have := (List.mem_filter.mp hi).2
      simpa using this
    have htier := riskLevel_tiering
      ((i.total_spent / (dp : ℚ) * (dim : ℚ)) / i.budget_amount)
    exact ⟨hb, rfl, htier.1, htier.2.1, htier.2.2⟩

/-- A summary with budget 50 and 100 already spent, for the C5 witness. -/
def c5Summary : SummaryRow := ⟨"Food", 100, 50, -50, 2⟩

theorem generatePredictions_spec_witness :
    predictionFor c5Summary [] 30 10 ∈ generatePredictions [c5Summary] [] 30 10 ∧
    (0 < (predictionFor c5Summary [] 30 10).budget ∧
      (predictionFor c5Summary [] 30 10).predictedTotal
        = (predictionFor c5Summary [] 30 10).currentSpent / (10 : ℚ) * (30 : ℚ) ∧
      ((predictionFor c5Summary [] 30 10).riskLevel = RiskLevel.high ↔
        1.2 < (predictionFor c5Summary [] 30 10).predictedTotal /
          (predictionFor c5Summary [] 30 10).budget) ∧
      ((predictionFor c5Summary [] 30 10).riskLevel = RiskLevel.medium ↔
        (0.9 < (predictionFor c5Summary [] 30 10).predictedTotal /
          (predictionFor c5Summary [] 30 10).budget ∧
         (predictionFor c5Summary [] 30 10).predictedTotal /
          (predictionFor c5Summary [] 30 10).budget ≤ 1.2)) ∧
      ((predictionFor c5Summary [] 30 10).riskLevel = RiskLevel.low ↔
        (predictionFor c5Summary [] 30 10).predictedTotal /
          (predictionFor c5Summary [] 30 10).budget ≤ 0.9)) := by
  have hmem : predictionFor c5Summary [] 30 10
      ∈ generatePredictions [c5Summary] [] 30 10 := by
    unfold generatePredictions
    have hfil : ([c5Summary].filter fun i => decide (0 < i.budget_amount))
        = [c5Summary] := by decide
    rw [hfil, List.map_cons]
    exact List.mem_cons_self _ _
  exact ⟨hmem, (generatePredictions_spec [c5Summary] [] 30 10).2.2 _ hmem⟩

section ProjectionLemmas

lemma generateMonthlyProjection_getElem (expenses : List Expense)
    (summaries : List SummaryRow) (y m dim dp i : ℕ) (h : i < dim) :
    (generateMonthlyProjection expenses summaries y m dim dp)[i]?
      = some
        { day := 1 + i
          actual := if 1 + i ≤ dp then
            some (projState (actualSpendingFn expenses y m) dp
              (avgDailySpending summaries dp) (1 + i)).1 else none
          predicted := (projState (actualSpendingFn expenses y m) dp
            (avgDailySpending summaries dp) (1 + i)).2
          isProjected := decide (dp < 1 + i) } := by
  unfold generateMonthlyProjection
  rw [List.getElem?_map, List.getElem?_range' 1 1 h, one_mul]
  rfl

lemma projState_succ (a : ℕ → ℚ) (dp : ℕ) (avg : ℚ) (d : ℕ) :
    projState a dp avg (d + 1)
      = if d + 1 ≤ dp then
          ((projState a dp avg d).1 + a (d + 1), (projState a dp avg d).1 + a (d + 1))
        else ((projState a dp avg d).1, (projState a dp avg d).2 + avg) := rfl

lemma projState_fst_eq_snd (a : ℕ → ℚ) (dp : ℕ) (avg : ℚ) (c : ℕ) (hc : c ≤ dp) :
    (projState a dp avg c).1 = (projState a dp avg c).2 := by
  cases c with
  | zero => rfl
  | succ n =>
    rw [projState_succ, if_pos hc]

lemma projState_monotone (a : ℕ → ℚ) (dp : ℕ) (avg : ℚ)
    (ha : ∀ k, 0 ≤ a k) (havg : 0 ≤ avg) (d : ℕ) :
    (projState a dp avg d).2 ≤ (projState a dp avg (d + 1)).2 := by
  rw [projState_succ]
  by_cases hd : d + 1 ≤ dp
  · rw [if_pos hd]
    have hfs := projState_fst_eq_snd a dp avg d (by omega)
    calc (projState a dp avg d).2 = (projState a dp avg d).1 := hfs.symm
      _ ≤ (projState a dp avg d).1 + a (d + 1) := le_add_of_nonneg_right (ha _)
  · rw [if_neg hd]
    exact le_add_of_nonneg_right havg

lemma addToDaily_nonneg (acc : List (SDate × ℚ)) (d : SDate) (a : ℚ)
    (hacc : ∀ p ∈ acc, 0 ≤ p.2) (ha : 0 ≤ a) :
    ∀ p ∈ addToDaily acc d a, 0 ≤ p.2 := by
  unfold addToDaily
  split
  · intro p hp
    rcases List.mem_map.mp hp with ⟨q, hq, rfl⟩
    by_cases hqd : (q.1 == d) = true
    · rw [if_pos hqd]
      exact add_nonneg (hacc q hq) ha
    · rw [if_neg hqd]
      exact hacc q hq
  · intro p hp
    rcases List.mem_append.mp hp with h | h
    · exact hacc p h
    · rw [List.mem_singleton] at h
      subst h
      exact ha

lemma foldl_addToDaily_nonneg (es : List Expense) (acc : List (SDate × ℚ))
    (hes : ∀ e ∈ es, 0 ≤ e.amount) (hacc : ∀ p ∈ acc, 0 ≤ p.2) :
    ∀ p ∈ es.foldl (fun acc e => addToDaily acc e.date e.amount) acc, 0 ≤ p.2 := by
  induction es generalizing acc with
  | nil => exact hacc
  | cons e es ih =>
    rw [List.foldl_cons]
    exact ih _ (fun e' h' => hes e' (List.mem_cons_of_mem _ h'))
      (addToDaily_nonneg acc e.date e.amount hacc (hes e (List.mem_cons_self e es)))

lemma dailySpendingMap_nonneg (es : List Expense)
    (hes : ∀ e ∈ es, 0 ≤ e.amount) : ∀ p ∈ dailySpendingMap es, 0 ≤ p.2 := by
  unfold dailySpendingMap
  exact foldl_addToDaily_nonneg es [] hes (by intro p hp; cases hp)

lemma head?_mem {α : Type} {l : List α} {a : α} (h : l.head? = some a) : a ∈ l := by
  cases l with
  | nil => cases h
  | cons x xs =>
    rw [List.head?_cons, Option.some.injEq] at h
    rw [← h]
    exact List.mem_cons_self x xs

lemma actualSpendingFn_nonneg (expenses : List Expense) (y m : ℕ)
    (hes : ∀ e ∈ expenses, 0 ≤ e.amount) :
    ∀ day, 0 ≤ actualSpendingFn expenses y m day := by
  intro day
  unfold actualSpendingFn
  cases hh : ((dailySpendingMap expenses).filter fun p =>
      p.1 == SDate.mk y m day).head? with
  | none => exact le_refl 0
  | some p =>
    exact dailySpendingMap_nonneg expenses hes p
      (List.mem_filter.mp (head?_mem hh)).1

lemma aggregation_total_spent_nonneg (s : DBState) (u : String) (m y : Nat)
    (hamt : ∀ e ∈ s.expenses, 0 ≤ e.amount) :
    ∀ r ∈ calculate_spending_insights s u m y, 0 ≤ r.total_spent := by
  intro r hr
  rcases List.mem_map.mp hr with ⟨c, _, rfl⟩
  apply List.sum_nonneg
  intro x hx
  rcases List.mem_map.mp hx with ⟨e, he, rfl⟩
  exact hamt e (List.mem_filter.mp he).1

end ProjectionLemmas

/-- Transactions and summaries realizing the spec's projection example:
300 spent so far (here on day 10), today = day 15 of a 30-day month. -/
def c6Expenses : List Expense := [⟨"u1", 300, "books", "edu", ⟨2025, 9, 10⟩⟩]

/-- The summary rows for the projection example (300 total spent). -/
def c6Summaries : List SummaryRow := [⟨"Education", 300, 0, -300, 1⟩]

/-- Day-16 point of the example projection. -/
def c6p16 : ProjPoint := ⟨16, none, 320, true⟩

/-- Day-15 point of the example projection. -/
def c6p15 : ProjPoint := ⟨15, some 300, 300, false⟩

unseal Rat.add Rat.sub Rat.mul Rat.inv Nat.gcd Rat.ofScientific in
/-- C6: in the monthly projection, every day strictly after today adds the
average daily spending (summary total divided by days elapsed, at least 1) to
the previous day's predicted value; in particular with today = 15 in a 30-day
month and 300 spent, day 16 predicts 320 and day 30 predicts 600. -/
theorem projection_recurrence_and_example :
    (∀ (expenses : List Expense) (summaries : List SummaryRow) (y m dim dp : ℕ),
      1 ≤ dp → ∀ day, dp < day → day ≤ dim →
      ∀ e e',
        (generateMonthlyProjection expenses summaries y m dim dp)[day - 1]? = some e →
        (generateMonthlyProjection expenses summaries y m dim dp)[day - 2]? = some e' →
        e.predicted = e'.predicted +
          (summaries.map (·.total_spent)).sum / ((max 1 dp : ℕ) : ℚ)) ∧
    ((generateMonthlyProjection c6Expenses c6Summaries 2025 9 30 15)[15]?.map
        (·.predicted) = some 320 ∧
      (generateMonthlyProjection c6Expenses c6Summaries 2025 9 30 15)[29]?.map
        (·.predicted) = some 600) := by
  constructor
  · intro expenses summaries y m dim dp h1 day h2 h3 e e' he he'
    have hmax : max 1 dp = dp := max_eq_right h1
    have hi1 : day - 1 < dim := by omega
    have hi2 : day - 2 < dim := by omega
    rw [generateMonthlyProjection_getElem expenses summaries y m dim dp _ hi1,
      Option.some.injEq] at he
    rw [generateMonthlyProjection_getElem expenses summaries y m dim dp _ hi2,
      Option.some.injEq] at he'
    have hep : e.predicted = (projState (actualSpendingFn expenses y m) dp
        (avgDailySpending summaries dp) (1 + (day - 1))).2 := by
      rw [← he]
    have hep' : e'.predicted = (projState (actualSpendingFn expenses y m) dp
        (avgDailySpending summaries dp) (1 + (day - 2))).2 := by
      rw [← he']
    have h1d : 1 + (day - 1) = day := by omega
    have h2d : 1 + (day - 2) = day - 1 := by omega
    rw [hep, hep', h1d, h2d, hmax]
    obtain ⟨k, rfl⟩ : ∃ k, day = k + 1 := ⟨day - 1, by omega⟩
    have hk : k + 1 - 1 = k := by omega
    rw [hk, projState_succ, if_neg (by omega : ¬(k + 1 ≤ dp))]
    rfl
  · constructor
    · decide
    · decide

unseal Rat.add Rat.sub Rat.mul Rat.inv Nat.gcd Rat.ofScientific in
theorem projection_recurrence_witness :
    ((1 : ℕ) ≤ 15 ∧ 15 < 16 ∧ 16 ≤ 30) ∧
    (generateMonthlyProjection c6Expenses c6Summaries 2025 9 30 15)[16 - 1]?
      = some c6p16 ∧
    (generateMonthlyProjection c6Expenses c6Summaries 2025 9 30 15)[16 - 2]?
      = some c6p15 ∧
    c6p16.predicted = c6p15.predicted +
      (c6Summaries.map (·.total_spent)).sum / ((max 1 15 : ℕ) : ℚ) := by
  have he : (generateMonthlyProjection c6Expenses c6Summaries 2025 9 30 15)[16 - 1]?
      = some c6p16 := by decide
  have he' : (generateMonthlyProjection c6Expenses c6Summaries 2025 9 30 15)[16 - 2]?
      = some c6p15 := by decide
  exact ⟨by decide, he, he',
    projection_recurrence_and_example.1 c6Expenses c6Summaries 2025 9 30 15
      (by decide) 16 (by decide) (by decide) c6p16 c6p15 he he'⟩

/-- C10: when all transaction amounts are non-negative, the monthly projection
over the summaries the aggregation derives from those transactions has exactly
`daysInMon` entries, numbered `1..daysInMon`, and its predicted series is
monotonically non-decreasing day over day. -/
theorem projection_shape_monotone (s : DBState) (u : String) (y m dim dp : ℕ)
    (hamt : ∀ e ∈ s.expenses, 0 ≤ e.amount) :
    (generateMonthlyProjection s.expenses
      (calculate_spending_insights s u m y) y m dim dp).length = dim ∧
    (∀ i, i < dim → ∃ pt,
      (generateMonthlyProjection s.expenses
        (calculate_spending_insights s u m y) y m dim dp)[i]? = some pt ∧
      pt.day = i + 1) ∧
    (∀ i pt pt',
      (generateMonthlyProjection s.expenses
        (calculate_spending_insights s u m y) y m dim dp)[i]? = some pt →
      (generateMonthlyProjection s.expenses
        (calculate_spending_insights s u m y) y m dim dp)[i + 1]? = some pt' →
      pt.predicted ≤ pt'.predicted) := by
  have hlen : (generateMonthlyProjection s.expenses
      (calculate_spending_insights s u m y) y m dim dp).length = dim := by
    unfold generateMonthlyProjection
    rw [List.length_map, List.length_range']
  have ha := actualSpendingFn_nonneg s.expenses y m hamt
  have havg : 0 ≤ avgDailySpending (calculate_spending_insights s u m y) dp := by
    unfold avgDailySpending
    apply div_nonneg _ (by positivity)
    apply List.sum_nonneg
    intro x hx
    rcases List.mem_map.mp hx with ⟨r, hr, rfl⟩
    exact aggregation_total_spent_nonneg s u m y hamt r hr
  refine ⟨hlen, ?_, ?_⟩
  · intro i hi
    refine ⟨_, generateMonthlyProjection_getElem _ _ _ _ _ _ _ hi, ?_⟩
    show 1 + i = i + 1
    omega
  · intro i pt pt' h h'
    have hi' : i + 1 < dim := by
      rcases List.getElem?_eq_some.mp h' with ⟨hlt, _⟩
      rwa [hlen] at hlt
    have hi : i < dim := by omega
    rw [generateMonthlyProjection_getElem _ _ _ _ _ _ _ hi,
      Option.some.injEq] at h
    rw [generateMonthlyProjection_getElem _ _ _ _ _ _ _ hi',
      Option.some.injEq] at h'
    rw [← h, ← h']
    have hstep := projState_monotone (actualSpendingFn s.expenses y m) dp
      (avgDailySpending (calculate_spending_insights s u m y) dp) ha havg (1 + i)
    have hidx : 1 + (i + 1) = (1 + i) + 1 := by omega
    rw [hidx]
    exact hstep

/-- One-transaction state for the C10 witness. -/
def c10State : DBState :=
  { categories := [⟨"food", "Food", "#ef4444"⟩]
    expenses := [⟨"u1", 10, "snack", "food", ⟨2025, 9, 3⟩⟩]
    budgets := [] }

theorem projection_shape_monotone_witness :
    (∀ e ∈ c10State.expenses, 0 ≤ e.amount) ∧
    ((generateMonthlyProjection c10State.expenses
      (calculate_spending_insights c10State "u1" 9 2025) 2025 9 30 15).length = 30 ∧
    (∀ i, i < 30 → ∃ pt,
      (generateMonthlyProjection c10State.expenses
        (calculate_spending_insights c10State "u1" 9 2025) 2025 9 30 15)[i]?
          = some pt ∧
      pt.day = i + 1) ∧
    (∀ i pt pt',
      (generateMonthlyProjection c10State.expenses
        (calculate_spending_insights c10State "u1" 9 2025) 2025 9 30 15)[i]?
          = some pt →
      (generateMonthlyProjection c10State.expenses
        (calculate_spending_insights c10State "u1" 9 2025) 2025 9 30 15)[i + 1]?
          = some pt' →
      pt.predicted ≤ pt'.predicted)) :=
  ⟨by decide, projection_shape_monotone c10State "u1" 2025 9 30 15 (by decide)⟩

section ConfidenceLemmas

lemma coefficientOfVariation_nonneg (l : List ℚ) :
    0 ≤ coefficientOfVariation l := by
  unfold coefficientOfVariation
  split
  · exact div_nonneg (Real.sqrt_nonneg _) (le_of_lt (by assumption))
  · norm_num

lemma confidence_bounds (es : List Expense) :
    0.3 ≤ confidence es ∧ confidence es ≤ 1 := by
  constructor
  · exact le_max_left _ _
  · unfold confidence
    apply max_le
    · norm_num
    · have := coefficientOfVariation_nonneg (spendingValues es)
      linarith

/-- One expense of amount 0: its daily-totals list is `[0]`, whose mean is 0. -/
def c7ZeroExpenses : List Expense := [⟨"u1", 0, "freebie", "food", ⟨2025, 9, 1⟩⟩]

lemma c7_zero_values : spendingValues c7ZeroExpenses = [0] := rfl

lemma c7_zero_mean : meanDaily (spendingValues c7ZeroExpenses) = 0 := by
  rw [c7_zero_values]
  unfold meanDaily
  simp

end ConfidenceLemmas

/-- C7 counterexample: on the daily totals `[0]` (one zero-amount transaction)
the mean is 0, but the code's coefficient of variation is 1 — not 0 — and the
resulting confidence is the 0.3 floor, not 1 as the claim states. -/
theorem confidence_mean_zero_counterexample :
    meanDaily (spendingValues c7ZeroExpenses) = 0 ∧
    coefficientOfVariation (spendingValues c7ZeroExpenses) = 1 ∧
    confidence c7ZeroExpenses = 0.3 := by
  have hcv : coefficientOfVariation (spendingValues c7ZeroExpenses) = 1 := by
    unfold coefficientOfVariation
    rw [if_neg]
    rw [c7_zero_mean]
    norm_num
  refine ⟨c7_zero_mean, hcv, ?_⟩
  unfold confidence
  rw [hcv]
  norm_num

/-- C7 (amended): confidence is `max(0.3, 1 − sd/mean)` when the mean of the
daily totals is positive; when the mean is zero (or the list is empty, where
JavaScript yields `NaN`), the code sets the coefficient of variation to 1, so
the confidence is the floor 0.3 — not 1. -/
theorem confidence_formula_amended (es : List Expense) :
    (0 < meanDaily (spendingValues es) →
      confidence es = max 0.3
        (1 - stdDevDaily (spendingValues es) / meanDaily (spendingValues es))) ∧
    (meanDaily (spendingValues es) ≤ 0 → confidence es = 0.3) := by
  constructor
  · intro h
    unfold confidence coefficientOfVariation
    rw [if_pos h]
  · intro h
    unfold confidence coefficientOfVariation
    rw [if_neg (not_lt.mpr h)]
    norm_num

/-- Two expenses of amount 2 on different days: daily totals `[2, 2]`. -/
def c7PosExpenses : List Expense :=
  [⟨"u1", 2, "coffee", "food", ⟨2025, 9, 1⟩⟩,
   ⟨"u1", 2, "tea", "food", ⟨2025, 9, 2⟩⟩]

lemma c7_pos_values : spendingValues c7PosExpenses = [2, 2] := rfl

lemma c7_pos_mean : meanDaily (spendingValues c7PosExpenses) = 2 := by
  rw [c7_pos_values]
  unfold meanDaily
  norm_num

theorem confidence_formula_amended_witness :
    (0 < meanDaily (spendingValues c7PosExpenses) ∧
      confidence c7PosExpenses = max 0.3
        (1 - stdDevDaily (spendingValues c7PosExpenses) /
          meanDaily (spendingValues c7PosExpenses))) ∧
    (meanDaily (spendingValues c7ZeroExpenses) ≤ 0 ∧
      confidence c7ZeroExpenses = 0.3) := by
  have hpos : 0 < meanDaily (spendingValues c7PosExpenses) := by
    rw [c7_pos_mean]
    norm_num
  have hz : meanDaily (spendingValues c7ZeroExpenses) ≤ 0 := le_of_eq c7_zero_mean
  exact ⟨⟨hpos, (confidence_formula_amended c7PosExpenses).1 hpos⟩,
    ⟨hz, (confidence_formula_amended c7ZeroExpenses).2 hz⟩⟩

/-- C8: every prediction produced by `generatePredictions` carries a confidence
in `[0, 1]` — in fact in `[0.3, 1]` — for every input. -/
theorem predictions_confidence_in_unit_interval (summaries : List SummaryRow)
    (expenses : List Expense) (dim dp : ℕ) :
    ∀ p ∈ generatePredictions summaries expenses dim dp,
      0 ≤ p.confidence ∧ p.confidence ≤ 1 := by
  intro p hp
  unfold generatePredictions at hp
  rcases List.mem_map.mp hp with ⟨i, _, rfl⟩
  have hb := confidence_bounds expenses
  exact ⟨le_trans (by norm_num) hb.1, hb.2⟩

/-- A summary with a nonzero budget and nothing spent, for the C8 witness
(paired with an empty transaction list). -/
def c8Summary : SummaryRow := ⟨"Food", 0, 100, 100, 0⟩

theorem predictions_confidence_witness :
    predictionFor c8Summary [] 30 15 ∈ generatePredictions [c8Summary] [] 30 15 ∧
    (0 ≤ (predictionFor c8Summary [] 30 15).confidence ∧
      (predictionFor c8Summary [] 30 15).confidence ≤ 1) := by
  have hmem : predictionFor c8Summary [] 30 15
      ∈ generatePredictions [c8Summary] [] 30 15 := by
    unfold generatePredictions
    have hfil : ([c8Summary].filter fun i => decide (0 < i.budget_amount))
        = [c8Summary] := by decide
    rw [hfil, List.map_cons]
    exact List.mem_cons_self _ _
  exact ⟨hmem,
    predictions_confidence_in_unit_interval [c8Summary] [] 30 15 _ hmem⟩

/-- A state whose single transaction references the category id `ghost`,
absent from the catalog. -/
def c9State : DBState :=
  { categories := [⟨"food", "Food", "#ef4444"⟩]
    expenses := [⟨"u1", 50, "mystery", "ghost", ⟨2024, 3, 10⟩⟩]
    budgets := [] }

unseal Rat.add Rat.sub Rat.mul Rat.inv Nat.gcd Rat.ofScientific in
/-- C9 counterexample: with a transaction of 50 whose categoryId is absent from
the catalog, the aggregation returns only the catalog's rows (here just Food
with 0 spent), no "Unknown" bucket appears, and the 50 shows up in no summary —
the transaction is dropped from that derived output, not rebucketed. -/
theorem aggregation_drops_unknown_counterexample :
    calculate_spending_insights c9State "u1" 3 2024 = [⟨"Food", 0, 0, 0, 0⟩] ∧
    ((c9State.expenses.filter fun e =>
      inPeriodFor "u1" 3 2024 e).map (·.amount)).sum = 50 ∧
    ((calculate_spending_insights c9State "u1" 3 2024).map (·.total_spent)).sum = 0 ∧
    (calculate_spending_insights c9State "u1" 3 2024).all
      (fun r => r.category_name != "Unknown") = true := by
  refine ⟨by decide, by decide, by decide, by decide⟩

/-- C9 (amended): a transaction referencing a categoryId absent from the
catalog never fails any computation, and the CSV export (and the trends-chart
mapping, which uses the same `?.name || 'Unknown'` expression) keeps the
transaction and labels it "Unknown"; the aggregation, however, returns one row
per catalog category only, so such a transaction is dropped from the summaries
rather than put in an "Unknown" bucket. -/
theorem missing_category_export_amended :
    (∀ (s : DBState) (u : String) (m y : Nat) (r : SummaryRow),
      r ∈ calculate_spending_insights s u m y →
      ∃ c ∈ s.categories, r.category_name = c.name) ∧
    (∀ es : List ExportExpense,
      (exportRows es).length = es.length ∧
      ∀ (i : ℕ) (row : ExportRow) (e : ExportExpense),
        (exportRows es)[i]? = some row → es[i]? = some e →
        row.category = categoryLabel e.categoryName ∧
        (e.categoryName = none → row.category = "Unknown")) := by
  constructor
  · intro s u m y r hr
    rcases List.mem_map.mp hr with ⟨c, hc, rfl⟩
    exact ⟨c, (sortCatsByName_perm s.categories).mem_iff.mp hc, rfl⟩
  · intro es
    constructor
    · unfold exportRows
      rw [List.length_map]
    · intro i row e hrow he
      unfold exportRows at hrow
      rw [List.getElem?_map, he, Option.map_some', Option.some.injEq] at hrow
      refine ⟨by rw [← hrow], fun hn => by rw [← hrow, hn]; rfl⟩

/-- Export input with a missing joined category, for the C9 witness. -/
def c9Export : List ExportExpense := [⟨⟨2024, 3, 10⟩, 50, "mystery", none, "cash"⟩]

unseal Rat.add Rat.sub Rat.mul Rat.inv Nat.gcd Rat.ofScientific in
theorem missing_category_export_amended_witness :
    ((⟨"Food", 0, 0, 0, 0⟩ : SummaryRow)
        ∈ calculate_spending_insights c9State "u1" 3 2024 ∧
      ∃ c ∈ c9State.categories,
        (⟨"Food", 0, 0, 0, 0⟩ : SummaryRow).category_name = c.name) ∧
    ((exportRows c9Export).length = c9Export.length ∧
      ((exportRows c9Export)[0]?
          = some ⟨⟨2024, 3, 10⟩, 50, "mystery", "Unknown", "cash"⟩ ∧
        c9Export[0]? = some ⟨⟨2024, 3, 10⟩, 50, "mystery", none, "cash"⟩ ∧
        (⟨⟨2024, 3, 10⟩, 50, "mystery", "Unknown", "cash"⟩ : ExportRow).category
          = categoryLabel
            (⟨⟨2024, 3, 10⟩, 50, "mystery", none, "cash"⟩ : ExportExpense).categoryName ∧
        ((⟨⟨2024, 3, 10⟩, 50, "mystery", none, "cash"⟩ : ExportExpense).categoryName
            = none →
          (⟨⟨2024, 3, 10⟩, 50, "mystery", "Unknown", "cash"⟩ : ExportRow).category
            = "Unknown"))) := by
  have hr : (⟨"Food", 0, 0, 0, 0⟩ : SummaryRow)
      ∈ calculate_spending_insights c9State "u1" 3 2024 := by decide
  have hrow : (exportRows c9Export)[0]?
      = some ⟨⟨2024, 3, 10⟩, 50, "mystery", "Unknown", "cash"⟩ := by decide
  have he : c9Export[0]? = some ⟨⟨2024, 3, 10⟩, 50, "mystery", none, "cash"⟩ := by
    decide
  exact ⟨⟨hr, missing_category_export_amended.1 c9State "u1" 3 2024 _ hr⟩,
    ⟨(missing_category_export_amended.2 c9Export).1,
      hrow, he, (missing_category_export_amended.2 c9Export).2 0 _ _ hrow he⟩⟩

end FinSight
